import Mathlib

/-!
Verification development for the disk-spinner data-integrity tester.

The repository's visible surface is `src/main.rs`: the per-device orchestration
(write test, then conditionally read-back test, mapped to a three-way
`Outcome`), the run orchestration (`FuturesOrdered` collection, partition on
`Good`, exit status), and the per-device setup loop (buffer-size resolution,
sanity checks, capacity probe, seed distribution).  The modules it delegates to
(`crypto`, `write_test`, `read_test`, `metadata`, platform validation) are not
part of the visible sources; where a claim depends on them they are modelled
from the specification, and each such definition says so in its doc comment.
-/

namespace DiskSpinner

/-- Mirrors `TestOptions` from the `metadata` module: the immutable per-device
configuration built in `main` (`src/main.rs` line 113). -/
structure TestOptions where
  buffer_size : Nat
  seed : Nat
  device_capacity : Nat
deriving DecidableEq, Repr

/-- Mirrors `enum Outcome` (`src/main.rs` lines 74-79): the three-way
per-device classification, each carrying the device path. -/
inductive Outcome where
  | Good (path : String)
  | Bad (path : String)
  | Uncertain (path : String)
deriving DecidableEq, Repr

/-- Modelled from the spec: the `crypto` module is not in the visible sources.
The spec (section 4.1) requires a deterministic keystream keyed by
`(seed, offset)` with random access; this concrete mixing function stands in
for the cryptographic keystream, keeping the properties the claims need
(purity, random access, totality). -/
def keystream (seed i : Nat) : Nat :=
  ((seed + 1) * 2654435761 + (i + 1) * 40503 + (seed ^^^ i)) % 256

/-- Modelled from the spec: `generate(seed, offset, length)` (section 4.1),
the pure chunk generator. Byte `i` of the chunk is the keystream byte at
absolute offset `offset + i`. -/
def generate (seed offset length : Nat) : List Nat :=
  (List.range length).map (fun i => keystream seed (offset + i))

/-- A sequence of generator calls, each described by its `(seed, offset,
length)` triple, with the outputs in call order.  Used to state that a call's
output does not depend on the calls made before it. -/
def genCallSequence (calls : List (Nat × Nat × Nat)) : List (List Nat) :=
  calls.map (fun c => generate c.1 c.2.1 c.2.2)

/-- Number of chunk-sized steps needed to cover `cap` bytes at `bs` bytes per
chunk (the iteration count of the write and read loops). -/
def numChunks (bs cap : Nat) : Nat := (cap + bs - 1) / bs

/-- Modelled from the spec: the body of the Write Engine's loop
(section 4.2) on an idealized fault-free device.  For each aligned offset the
chunk for `(seed, offset)` is generated and appended; the final partial chunk
is written at its true (shorter) length.  `fuel` is the remaining number of
chunk steps; the wrapper passes exactly `numChunks`. -/
def writeChunksGo (seed bs : Nat) : Nat → Nat → Nat → List Nat
  | 0, _, _ => []
  | fuel + 1, offset, remaining =>
    if remaining = 0 then []
    else
      generate seed offset (min bs remaining) ++
        writeChunksGo seed bs fuel (offset + min bs remaining)
          (remaining - min bs remaining)

/-- Modelled from the spec: the full byte stream the Write Engine lays down
across `device_capacity` bytes on an idealized fault-free device. -/
def writeStream (opts : TestOptions) : List Nat :=
  writeChunksGo opts.seed opts.buffer_size
    (numChunks opts.buffer_size opts.device_capacity) 0 opts.device_capacity

/-- Reading a chunk of `len` bytes at `offset` from a device whose content is
the byte function `content`. -/
def readChunk (content : Nat → Nat) (offset len : Nat) : List Nat :=
  (List.range len).map (fun i => content (offset + i))

/-- Modelled from the spec: the body of the Read-Verify Engine's loop
(section 4.3).  Each chunk read from the device is compared against the
regenerated expected chunk; a mismatch increments the counter and the loop
continues.  `fuel` is the remaining number of chunk steps. -/
def verifyChunksGo (seed bs : Nat) (content : Nat → Nat) : Nat → Nat → Nat → Nat
  | 0, _, _ => 0
  | fuel + 1, offset, remaining =>
    if remaining = 0 then 0
    else
      (if readChunk content offset (min bs remaining) =
          generate seed offset (min bs remaining) then 0 else 1) +
        verifyChunksGo seed bs content fuel (offset + min bs remaining)
          (remaining - min bs remaining)

/-- Modelled from the spec: the total mismatching-chunk count the Read-Verify
Engine reports for a device whose content is `content` (section 4.3). -/
def mismatchCount (opts : TestOptions) (content : Nat → Nat) : Nat :=
  verifyChunksGo opts.seed opts.buffer_size content
    (numChunks opts.buffer_size opts.device_capacity) 0 opts.device_capacity

/-- A device as a per-device task sees it: whether the write pass fails (and
with what error), whether the read-back pass hits an I/O error, and the byte
content the read-back pass observes.  Faults are injected here because the
real ones arise from hardware, outside any code. -/
structure DeviceModel where
  writeFault : Option String
  readFault : Option String
  content : Nat → Nat

/-- Mirrors `write_test::write`'s result as `main` consumes it
(`src/main.rs` line 114): success, or an error that carries the cause. -/
def writeTestRun (dev : DeviceModel) : Except String Unit :=
  match dev.writeFault with
  | some e => .error e
  | none => .ok ()

/-- Modelled from the spec: `read_test::read_back`'s result as `main`
consumes it (`src/main.rs` line 117): the outer `Except` is an I/O error that
aborted verification, the inner value is `ok` for a fully matching device and
`error n` for `n > 0` mismatching chunks (`Ok(Err(n))` in the source). -/
def readBackRun (opts : TestOptions) (dev : DeviceModel) :
    Except String (Except Nat Unit) :=
  match dev.readFault with
  | some e => .error e
  | none =>
    let n := mismatchCount opts dev.content
    if n = 0 then .ok (.ok ()) else .ok (.error n)

/-- The I/O passes a device task can invoke, recorded in invocation order. -/
inductive RwEvent where
  | writeCall
  | readCall
deriving DecidableEq, Repr

/-- Mirrors the per-device task body (`src/main.rs` lines 110-137): run the
write test; on success run the read-back test and map its nested result to
`Good`/`Bad`/`Uncertain`; on write failure skip the read-back and report
`Uncertain`.  Alongside the outcome it returns the trace of engine
invocations, so "the read-back is never invoked" is statable. -/
def deviceTask (path : String) (opts : TestOptions) (dev : DeviceModel) :
    Outcome × List RwEvent :=
  match writeTestRun dev with
  | .error _ => (.Uncertain path, [.writeCall])
  | .ok _ =>
    match readBackRun opts dev with
    | .ok (.ok _) => (.Good path, [.writeCall, .readCall])
    | .ok (.error _) => (.Bad path, [.writeCall, .readCall])
    | .error _ => (.Uncertain path, [.writeCall, .readCall])

/-- Mirrors `matches!(outcome, Outcome::Good(_))` (`src/main.rs` line 140),
the predicate the final partition uses. -/
def isGood : Outcome → Bool
  | .Good _ => true
  | _ => false

/-- The two failure flavours `main` can end with: a task that terminated
abnormally (line 139's `map_err`), or the final `bail!` when some device is
not `Good` (line 147). -/
inductive RunError where
  | taskFault (e : String)
  | testsNotSuccessful
deriving DecidableEq, Repr

/-- Mirrors `FuturesOrdered::try_collect` as `main` uses it
(`src/main.rs` line 139): results arrive in input order; the first abnormal
task termination aborts collection. -/
def tryCollect : List (Except String Outcome) → Except String (List Outcome)
  | [] => .ok []
  | r :: rest =>
    match r with
    | .error e => .error e
    | .ok a =>
      match tryCollect rest with
      | .error e => .error e
      | .ok others => .ok (a :: others)

/-- Mirrors the final verdict block (`src/main.rs` lines 140-149): partition
the outcomes on `isGood`; if the failed side is non-empty, bail. -/
def verdictOutcomes (outcomes : List Outcome) : Except RunError Unit :=
  let p := outcomes.partition isGood
  if p.2.isEmpty then .ok () else .error .testsNotSuccessful

/-- Mirrors the tail of `main` (`src/main.rs` lines 139-149): collect the
task results (an abnormal termination becomes a run-level `taskFault`), then
compute the verdict.  `main` returning `ok` is exactly a zero exit status. -/
def mainExit (rs : List (Except String Outcome)) : Except RunError Unit :=
  match tryCollect rs with
  | .error e => .error (.taskFault e)
  | .ok outcomes => verdictOutcomes outcomes

/-- The metadata a `ValidDevice` carries about the underlying block device;
only the physical block size is consulted by `main` (`src/main.rs` line 100). -/
structure DeviceMeta where
  physical_block_size : Option Nat
deriving DecidableEq, Repr

/-- Mirrors the `ValidDevice` fields destructured in `main`
(`src/main.rs` lines 93-97). -/
structure ValidDevice where
  device : DeviceMeta
  partitionInfo : Option Unit
  path : String
deriving DecidableEq, Repr

/-- Mirrors the `Args` fields `main` reads (`src/main.rs` lines 40-72). -/
structure Args where
  devices : List ValidDevice
  buffer_size : Option Nat
  seed : Option Nat
deriving DecidableEq, Repr

/-- Mirrors the seed resolution (`src/main.rs` line 89): the caller-supplied
seed, or a freshly generated one.  `fresh` stands for the value
`thread_rng().gen()` would produce. -/
def resolveSeed (args : Args) (fresh : Nat) : Nat :=
  match args.seed with
  | some s => s
  | none => fresh

/-- Mirrors the buffer-size resolution (`src/main.rs` lines 98-104): the
caller override, else the device's physical block size, else 8192. -/
def resolveBufferSize (args : Args) (d : ValidDevice) : Nat :=
  match args.buffer_size with
  | some b => b
  | none =>
    match d.device.physical_block_size with
    | some b => b
    | none => 8192

/-- The environment-provided checks the setup loop calls: `sanity_checks`
(platform-specific, not in the visible sources) and `device_capacity` from the
`metadata` module.  Both are inputs to the model. -/
structure SetupEnv where
  sanity : Args → Option Unit → String → DeviceMeta → Except String Unit
  capacity : String → Except String Nat

/-- Mirrors one iteration of the setup loop (`src/main.rs` lines 92-113):
resolve the buffer size, run the sanity checks (the `?` on line 105 propagates
the error out of `main`), probe the capacity (the `?` on line 108 likewise),
and build the task's `TestOptions` with the run-wide seed value. -/
def setupDevice (env : SetupEnv) (args : Args) (seed : Nat) (d : ValidDevice) :
    Except String TestOptions :=
  let bs := resolveBufferSize args d
  match env.sanity args d.partitionInfo d.path d.device with
  | .error e => .error e
  | .ok _ =>
    match env.capacity d.path with
    | .error e => .error e
    | .ok cap => .ok { buffer_size := bs, seed := seed, device_capacity := cap }

/-- Mirrors the body of the setup loop over a remaining device list: the
per-device `TestOptions` in device order, or the first validation/probe
error — which, through `?`, aborts `main` itself before any further device is
processed. -/
def setupLoop (env : SetupEnv) (args : Args) (seed : Nat) :
    List ValidDevice → Except String (List TestOptions)
  | [] => .ok []
  | d :: rest =>
    match setupDevice env args seed d with
    | .error e => .error e
    | .ok opts =>
      match setupLoop env args seed rest with
      | .error e => .error e
      | .ok others => .ok (opts :: others)

/-- Mirrors the whole setup loop (`src/main.rs` lines 92-138), iterating over
`args.devices`. -/
def setupAll (env : SetupEnv) (args : Args) (seed : Nat) :
    Except String (List TestOptions) :=
  setupLoop env args seed args.devices

/-- Modelled from the documented semantics of `futures::stream::FuturesOrdered`
(not part of this repository's sources): tasks complete in an arbitrary order,
each completion tagged with the task's input-order index, and the collector
buffers completions, yielding the value for index 0, then 1, and so on. -/
def collectInOrder {α : Type} (n : Nat) (completions : List (Nat × α)) : List α :=
  (List.range n).filterMap (fun i => (completions.find? (fun p => p.1 == i)).map Prod.snd)

/-- Concrete options for witnesses: 4-byte chunks over an 8-byte capacity. -/
def opts0 : TestOptions := { buffer_size := 4, seed := 0, device_capacity := 8 }

/-- A fault-free device whose content matches the expected stream. -/
def devGood : DeviceModel :=
  { writeFault := none, readFault := none, content := fun a => keystream 0 a }

/-- A device whose write pass fails with an I/O error. -/
def devWriteFail : DeviceModel :=
  { writeFault := some "io error", readFault := none, content := fun _ => 0 }

/-- A device whose write pass succeeds but whose read-back pass hits an I/O
error. -/
def devReadFail : DeviceModel :=
  { writeFault := none, readFault := some "io error", content := fun a => keystream 0 a }

/-- Concrete outcome list for witnesses. -/
def outcomes0 : List Outcome := [.Good "sda", .Uncertain "sdb"]

/-- Concrete task-result list for witnesses: one device, finished `Good`. -/
def rs0 : List (Except String Outcome) := [.ok (.Good "sda")]

/-- Concrete per-device results for the ordering witness. -/
def results0 : List Outcome := [.Good "sda", .Bad "sdb"]

/-- The same results tagged with their input indices, completing out of
order (device 1 finishes before device 0). -/
def completions0 : List (Nat × Outcome) := [(1, .Bad "sdb"), (0, .Good "sda")]

/-- A setup environment whose checks all pass. -/
def envOk : SetupEnv :=
  { sanity := fun _ _ _ _ => .ok (), capacity := fun _ => .ok 4096 }

/-- A setup environment whose sanity check rejects the device at path
`"bad"` and accepts every other device. -/
def envFailBad : SetupEnv :=
  { sanity := fun _ _ path _ =>
      if path = "bad" then .error "device ineligible" else .ok ()
    capacity := fun _ => .ok 4096 }

/-- A setup environment whose sanity checks pass but whose capacity probe
fails for the device at path `"bad"`. -/
def envCapFail : SetupEnv :=
  { sanity := fun _ _ _ _ => .ok ()
    capacity := fun path =>
      if path = "bad" then .error "capacity probe failed" else .ok 4096 }

/-- A device that `envFailBad` rejects. -/
def devIneligible : ValidDevice :=
  { device := { physical_block_size := some 512 }, partitionInfo := none, path := "bad" }

/-- A device that every environment here accepts. -/
def devEligible : ValidDevice :=
  { device := { physical_block_size := some 512 }, partitionInfo := none, path := "good" }

/-- Arguments with two eligible devices and no caller-supplied seed. -/
def args0 : Args := { devices := [devEligible, devEligible], buffer_size := none, seed := none }

/-- Arguments whose first device is ineligible and whose second is fine. -/
def argsBad : Args := { devices := [devIneligible, devEligible], buffer_size := none, seed := some 5 }

/-- The options `setupAll` builds for `args0` under `envOk` with fresh
seed 7. -/
def optsList0 : List TestOptions :=
  [{ buffer_size := 512, seed := 7, device_capacity := 4096 },
   { buffer_size := 512, seed := 7, device_capacity := 4096 }]

/-- The byte content of an idealized fault-free device after a fully
successful write pass. -/
def deviceContentAfterWrite (opts : TestOptions) : Nat → Nat :=
  fun a => (writeStream opts).getD a 0

end DiskSpinner

namespace DiskSpinner

/-- Helper: `deviceTask` on a device whose write pass succeeds. -/
theorem deviceTask_write_ok (path : String) (opts : TestOptions) (dev : DeviceModel)
    (hw : dev.writeFault = none) :
    deviceTask path opts dev =
      match readBackRun opts dev with
      | .ok (.ok _) => (.Good path, [.writeCall, .readCall])
      | .ok (.error _) => (.Bad path, [.writeCall, .readCall])
      | .error _ => (.Uncertain path, [.writeCall, .readCall]) := by
  unfold deviceTask writeTestRun
  rw [hw]

/-- C1: with a successful write pass and a read-back pass that completes
without an I/O error, the orchestrator classifies the device `Good` exactly
when the mismatch count is `0` and `Bad` exactly when it is positive
(`src/main.rs` lines 117-125). -/
theorem good_iff_zero_bad_iff_pos_mismatches (path : String) (opts : TestOptions)
    (dev : DeviceModel) (hw : dev.writeFault = none) (hr : dev.readFault = none) :
    ((deviceTask path opts dev).1 = .Good path ↔ mismatchCount opts dev.content = 0) ∧
    ((deviceTask path opts dev).1 = .Bad path ↔ 0 < mismatchCount opts dev.content) := by
  rw [deviceTask_write_ok path opts dev hw]
  unfold readBackRun
  rw [hr]
  by_cases h : mismatchCount opts dev.content = 0
  · simp [h]
  · simp [h, Nat.pos_of_ne_zero h]

/-- Witness for C1 at a concrete fault-free, mismatch-free device. -/
theorem good_iff_zero_bad_iff_pos_mismatches_witness :
    ((deviceTask "sda" opts0 devGood).1 = .Good "sda" ↔
      mismatchCount opts0 devGood.content = 0) ∧
    ((deviceTask "sda" opts0 devGood).1 = .Bad "sda" ↔
      0 < mismatchCount opts0 devGood.content) :=
  good_iff_zero_bad_iff_pos_mismatches "sda" opts0 devGood rfl rfl

/-- C2: a failed write pass makes the orchestrator report `Uncertain` and
skip the read-back pass entirely (`src/main.rs` lines 132-135). -/
theorem write_failure_uncertain_skips_readback (path : String) (opts : TestOptions)
    (dev : DeviceModel) (e : String) (hw : dev.writeFault = some e) :
    (deviceTask path opts dev).1 = .Uncertain path ∧
    RwEvent.readCall ∉ (deviceTask path opts dev).2 := by
  unfold deviceTask writeTestRun
  rw [hw]
  simp

/-- Witness for C2 at a concrete device whose write pass fails. -/
theorem write_failure_uncertain_skips_readback_witness :
    (deviceTask "sdb" opts0 devWriteFail).1 = .Uncertain "sdb" ∧
    RwEvent.readCall ∉ (deviceTask "sdb" opts0 devWriteFail).2 :=
  write_failure_uncertain_skips_readback "sdb" opts0 devWriteFail "io error" rfl

/-- C3: a read-back pass that fails with an I/O error (write pass having
succeeded) yields `Uncertain`, never `Bad` (`src/main.rs` lines 126-129). -/
theorem read_io_error_uncertain_never_bad (path : String) (opts : TestOptions)
    (dev : DeviceModel) (e : String) (hw : dev.writeFault = none)
    (hr : dev.readFault = some e) :
    (deviceTask path opts dev).1 = .Uncertain path ∧
    (deviceTask path opts dev).1 ≠ .Bad path := by
  rw [deviceTask_write_ok path opts dev hw]
  unfold readBackRun
  rw [hr]
  simp

/-- Witness for C3 at a concrete device whose read-back pass errors. -/
theorem read_io_error_uncertain_never_bad_witness :
    (deviceTask "sdc" opts0 devReadFail).1 = .Uncertain "sdc" ∧
    (deviceTask "sdc" opts0 devReadFail).1 ≠ .Bad "sdc" :=
  read_io_error_uncertain_never_bad "sdc" opts0 devReadFail "io error" rfl rfl

/-- C10: the final summary collapses the three-way classification to
Good-versus-not-Good: the failed partition is exactly the non-`Good`
outcomes, `Uncertain` lands in it just as `Bad` does, swapping an
`Uncertain` for a `Bad` leaves the verdict unchanged, and the run succeeds
exactly when the failed partition is empty (`src/main.rs` lines 140-148). -/
theorem summary_collapses_uncertain_with_bad (outcomes : List Outcome) (p : String) :
    ((outcomes.partition isGood).2 = outcomes.filter (fun o => !isGood o)) ∧
    (isGood (.Uncertain p) = false ∧ isGood (.Bad p) = false) ∧
    (Outcome.Uncertain p ∈ outcomes → Outcome.Uncertain p ∈ (outcomes.partition isGood).2) ∧
    (∀ rest, verdictOutcomes (.Uncertain p :: rest) = verdictOutcomes (.Bad p :: rest)) ∧
    (verdictOutcomes outcomes = .ok () ↔ (outcomes.partition isGood).2 = []) := by
  refine ⟨?_, ⟨rfl, rfl⟩, ?_, ?_, ?_⟩
  · rw [List.partition_eq_filter_filter]
    rfl
  · intro hmem
    rw [List.partition_eq_filter_filter]
    exact List.mem_filter.mpr ⟨hmem, rfl⟩
  · intro rest
    unfold verdictOutcomes
    rw [List.partition_eq_filter_filter, List.partition_eq_filter_filter]
    simp [isGood]
  · unfold verdictOutcomes
    simp only [List.isEmpty_iff]
    split <;> rename_i h
    · exact iff_of_true rfl h
    · exact iff_of_false (by simp) h

/-- Helper: a generated chunk has exactly the requested length. -/
theorem generate_length (seed offset len : Nat) : (generate seed offset len).length = len := by
  rw [generate]
  simp

/-- Helper: byte `i` of a generated chunk is the keystream byte at absolute
offset `offset + i`. -/
theorem generate_getD (seed offset len i : Nat) (h : i < len) :
    (generate seed offset len).getD i 0 = keystream seed (offset + i) := by
  have hl : i < (generate seed offset len).length := by rw [generate_length]; exact h
  rw [List.getD_eq_getElem _ _ hl]
  simp [generate]

/-- Helper: after a fully successful write pass, the byte at each in-range
address is exactly the keystream byte for that address. -/
theorem writeChunksGo_getD (seed bs : Nat) (hbs : 0 < bs) :
    ∀ fuel offset remaining, remaining ≤ fuel * bs → ∀ i, i < remaining →
      (writeChunksGo seed bs fuel offset remaining).getD i 0 =
        keystream seed (offset + i) := by
  intro fuel
  induction fuel with
  | zero =>
    intro o r h i hi
    omega
  | succ fuel ih =>
    intro o r h i hi
    have hr : ¬ r = 0 := by omega
    rw [writeChunksGo, if_neg hr]
    have hlen : (generate seed o (min bs r)).length = min bs r := generate_length _ _ _
    have hminpos : 0 < min bs r := by
      rcases Nat.le_total bs r with hc | hc
      · rw [Nat.min_eq_left hc]; exact hbs
      · rw [Nat.min_eq_right hc]; omega
    have hbound : r - min bs r ≤ fuel * bs := by
      rcases Nat.le_total bs r with hc | hc
      · rw [Nat.min_eq_left hc]
        rw [Nat.succ_mul] at h
        omega
      · rw [Nat.min_eq_right hc]
        omega
    by_cases hcase : i < min bs r
    · rw [List.getD_append _ _ _ _ (by rw [hlen]; exact hcase)]
      exact generate_getD seed o (min bs r) i hcase
    · have hge : (generate seed o (min bs r)).length ≤ i := by rw [hlen]; omega
      rw [List.getD_append_right _ _ _ _ hge, hlen]
      have := ih (o + min bs r) (r - min bs r) hbound (i - min bs r) (by omega)
      rw [this]
      congr 1
      omega

/-- Helper: the read-verify pass counts zero mismatches over any extent whose
device content agrees with the keystream. -/
theorem verifyChunksGo_eq_zero (seed bs : Nat) (content : Nat → Nat) (hbs : 0 < bs) :
    ∀ fuel offset remaining, remaining ≤ fuel * bs →
      (∀ a, offset ≤ a → a < offset + remaining → content a = keystream seed a) →
      verifyChunksGo seed bs content fuel offset remaining = 0 := by
  intro fuel
  induction fuel with
  | zero =>
    intro o r h hc
    rfl
  | succ fuel ih =>
    intro o r h hc
    by_cases hr : r = 0
    · rw [hr, verifyChunksGo]
      simp
    · rw [verifyChunksGo, if_neg hr]
      have hbound : r - min bs r ≤ fuel * bs := by
        rcases Nat.le_total bs r with hcc | hcc
        · rw [Nat.min_eq_left hcc]
          rw [Nat.succ_mul] at h
          omega
        · rw [Nat.min_eq_right hcc]
          omega
      have hchunk : readChunk content o (min bs r) = generate seed o (min bs r) := by
        rw [readChunk, generate]
        apply List.map_congr_left
        intro i hi
        have hilt : i < min bs r := List.mem_range.mp hi
        exact hc (o + i) (Nat.le_add_right o i) (by omega)
      rw [if_pos hchunk]
      rw [ih (o + min bs r) (r - min bs r) hbound ?_]
      intro a ha1 ha2
      exact hc a (by omega) (by omega)

/-- Helper: `numChunks` chunks of `bs` bytes cover the whole capacity. -/
theorem cap_le_numChunks_mul (bs cap : Nat) (hbs : 0 < bs) :
    cap ≤ numChunks bs cap * bs := by
  have h : bs * ((cap + bs - 1) / bs) + (cap + bs - 1) % bs = cap + bs - 1 :=
    Nat.div_add_mod _ _
  have hm : (cap + bs - 1) % bs < bs := Nat.mod_lt _ hbs
  rw [numChunks]
  rw [Nat.mul_comm bs _] at h
  generalize hG : (cap + bs - 1) / bs * bs = X at h ⊢
  omega

/-- C4 round-trip law: on an idealized fault-free device, a fully successful
write pass with options `opts` followed by the read-verify pass over the same
options yields mismatch count `0` (spec section 8). -/
theorem round_trip_zero_mismatches (opts : TestOptions) :
    mismatchCount opts (deviceContentAfterWrite opts) = 0 := by
  rcases Nat.eq_zero_or_pos opts.buffer_size with hbs | hbs
  · rw [mismatchCount, numChunks, hbs]
    rw [Nat.div_zero]
    rfl
  · rw [mismatchCount]
    apply verifyChunksGo_eq_zero _ _ _ hbs _ _ _
      (cap_le_numChunks_mul _ _ hbs)
    intro a ha0 hacap
    rw [deviceContentAfterWrite, writeStream]
    have := writeChunksGo_getD opts.seed opts.buffer_size hbs
      (numChunks opts.buffer_size opts.device_capacity) 0 opts.device_capacity
      (cap_le_numChunks_mul _ _ hbs) a (by omega)
    rw [this, Nat.zero_add]

/-- C5: a generator call's output is a function of its `(seed, offset,
length)` triple alone — the same triple yields byte-identical output after
any two call histories — and the call cannot fail: it always returns a full
`length`-byte chunk (spec section 4.1). -/
theorem generate_deterministic_history_free (h1 h2 : List (Nat × Nat × Nat))
    (s o l : Nat) :
    (genCallSequence (h1 ++ [(s, o, l)])).getLast? = some (generate s o l) ∧
    (genCallSequence (h1 ++ [(s, o, l)])).getLast? =
      (genCallSequence (h2 ++ [(s, o, l)])).getLast? ∧
    (generate s o l).length = l := by
  have hlast : ∀ h : List (Nat × Nat × Nat),
      (genCallSequence (h ++ [(s, o, l)])).getLast? = some (generate s o l) := by
    intro h
    rw [genCallSequence, List.map_append]
    exact List.getLast?_concat _
  refine ⟨hlast h1, ?_, ?_⟩
  · rw [hlast h1, hlast h2]
  · rw [generate]
    simp

/-- Helper: a `filterMap` whose function always succeeds is a `map`. -/
theorem filterMap_eq_map_of_forall_some {a b : Type} (g : a -> Option b) (f : a -> b)
    (l : List a) (h : forall x, x ∈ l -> g x = some (f x)) : l.filterMap g = l.map f := by
  induction l with
  | nil => rfl
  | cons x rest ih =>
    rw [List.filterMap_cons, h x (List.mem_cons_self x rest), List.map_cons,
      ih (fun y hy => h y (List.mem_cons_of_mem x hy))]

/-- Helper: in any completion order of the tagged results, the buffered
lookup for index `i` finds exactly the result of task `i`. -/
theorem find_tagged_of_perm (results : List Outcome) (completions : List (Nat × Outcome))
    (hp : completions.Perm results.enum) (i : Nat) (hi : i < results.length) :
    completions.find? (fun p => p.1 == i) = some (i, results[i]) := by
  have hmem : (i, results[i]) ∈ completions := by
    apply hp.mem_iff.mpr
    have hb : i < results.enum.length := by simpa using hi
    have : results.enum[i] = (i, results[i]) := List.getElem_enum _ _ hb
    rw [← this]
    exact List.getElem_mem hb
  have hnodup : (completions.map Prod.fst).Nodup := by
    have hperm : (completions.map Prod.fst).Perm (results.enum.map Prod.fst) := hp.map _
    exact hperm.nodup_iff.mpr (List.nodup_enum_map_fst results)
  have hsome : (completions.find? (fun p => p.1 == i)).isSome := by
    rw [List.find?_isSome]
    exact ⟨_, hmem, by simp⟩
  obtain ⟨q, hq⟩ := Option.isSome_iff_exists.mp hsome
  have hqmem : q ∈ completions := List.mem_of_find?_eq_some hq
  have hqkey : q.1 = i := by
    have := List.find?_some hq
    simpa using this
  have heq : q = (i, results[i]) := by
    apply List.inj_on_of_nodup_map hnodup hqmem hmem
    simp [hqkey]
  rw [hq, heq]

/-- C6: whatever order the device tasks complete in (any permutation of the
index-tagged results), the collected outcome list is the caller-supplied
device order (`src/main.rs` lines 91 and 139, `FuturesOrdered`). -/
theorem outcomes_in_input_order (results : List Outcome)
    (completions : List (Nat × Outcome)) (hp : completions.Perm results.enum) :
    collectInOrder results.length completions = results := by
  rw [collectInOrder]
  rw [filterMap_eq_map_of_forall_some _
    (fun i => results.getD i (Outcome.Good "")) _ ?hall]
  case hall =>
    intro i hi
    have hlt : i < results.length := List.mem_range.mp hi
    rw [find_tagged_of_perm results completions hp i hlt]
    show Option.map Prod.snd (some (i, results[i])) = some (results.getD i (Outcome.Good ""))
    rw [List.getD_eq_getElem _ _ hlt]
    rfl
  apply List.ext_getElem (by simp)
  intro i h1 h2
  simp only [List.getElem_map, List.getElem_range]
  rw [List.getD_eq_getElem _ _ (by simpa using h2)]

/-- Witness for C6: two devices completing in reverse order still report in
input order. -/
theorem outcomes_in_input_order_witness :
    collectInOrder results0.length completions0 = results0 :=
  outcomes_in_input_order results0 completions0
    (List.Perm.swap (0, Outcome.Good "sda") (1, Outcome.Bad "sdb") [])

/-- Helper: `tryCollect` succeeds exactly on lists with no abnormal
termination, returning the outcomes in order. -/
theorem tryCollect_eq_ok_iff (rs : List (Except String Outcome)) (outcomes : List Outcome) :
    tryCollect rs = .ok outcomes ↔ rs = outcomes.map Except.ok := by
  induction rs generalizing outcomes with
  | nil =>
    cases outcomes <;> simp [tryCollect]
  | cons r rest ih =>
    cases r with
    | error e =>
      cases outcomes <;> simp [tryCollect]
    | ok a =>
      constructor
      · intro h
        cases htc : tryCollect rest with
        | error e => rw [tryCollect, htc] at h; cases h
        | ok others =>
          rw [tryCollect, htc] at h
          cases h
          rw [List.map_cons, (ih others).mp htc]
      · intro h
        cases outcomes with
        | nil => cases h
        | cons b bs =>
          rw [List.map_cons] at h
          injection h with h1 h2
          injection h1 with h1
          rw [tryCollect, (ih bs).mpr h2, h1]

/-- Helper: an abnormal termination anywhere in the results makes
`tryCollect` fail. -/
theorem tryCollect_error_of_mem (rs : List (Except String Outcome)) (e : String)
    (h : Except.error e ∈ rs) : ∃ e2, tryCollect rs = .error e2 := by
  induction rs with
  | nil => cases h
  | cons r rest ih =>
    cases r with
    | error e1 => exact ⟨e1, rfl⟩
    | ok a =>
      have hrest : Except.error e ∈ rest := by
        rcases List.mem_cons.mp h with h1 | h1
        · cases h1
        · exact h1
      obtain ⟨e2, h2⟩ := ih hrest
      exact ⟨e2, by rw [tryCollect, h2]⟩

/-- Helper: the verdict is `ok` exactly when every outcome is `Good`. -/
theorem verdictOutcomes_ok_iff (outcomes : List Outcome) :
    verdictOutcomes outcomes = .ok () ↔ ∀ o ∈ outcomes, isGood o = true := by
  unfold verdictOutcomes
  rw [List.partition_eq_filter_filter]
  simp only [List.isEmpty_iff]
  split <;> rename_i h
  · refine iff_of_true rfl ?_
    intro o ho
    by_contra hbad
    have : o ∈ List.filter (not ∘ isGood) outcomes :=
      List.mem_filter.mpr ⟨ho, by simp [Function.comp, hbad]⟩
    rw [h] at this
    exact absurd this (List.not_mem_nil o)
  · refine iff_of_false (by simp) ?_
    intro hall
    apply h
    apply List.filter_eq_nil_iff.mpr
    intro o ho
    simp [Function.comp, hall o ho]

/-- C7: `main` returns `ok` (exit status zero) exactly when every task
finished normally with outcome `Good`; any abnormal task termination turns
into a run-level `taskFault` error rather than an `Uncertain` outcome
(`src/main.rs` lines 139-149). -/
theorem exit_zero_iff_all_good (rs : List (Except String Outcome)) :
    (mainExit rs = .ok () ↔ ∀ r ∈ rs, ∃ p, r = .ok (.Good p)) ∧
    ((∃ e, Except.error e ∈ rs) → ∃ e2, mainExit rs = .error (.taskFault e2)) := by
  constructor
  · constructor
    · intro h r hr
      cases htc : tryCollect rs with
      | error e => rw [mainExit, htc] at h; cases h
      | ok outcomes =>
        rw [mainExit, htc] at h
        have hrs := (tryCollect_eq_ok_iff rs outcomes).mp htc
        have hall := (verdictOutcomes_ok_iff outcomes).mp h
        rw [hrs] at hr
        obtain ⟨o, ho, rfl⟩ := List.mem_map.mp hr
        cases o with
        | Good p => exact ⟨p, rfl⟩
        | Bad p => exact absurd (hall _ ho) (by simp [isGood])
        | Uncertain p => exact absurd (hall _ ho) (by simp [isGood])
    · intro h
      have hmap : rs = (rs.map (fun r =>
          match r with
          | .ok (Outcome.Good p) => Outcome.Good p
          | _ => Outcome.Good "")).map Except.ok := by
        rw [List.map_map]
        apply List.ext_getElem (by simp)
        intro i h1 h2
        simp only [List.getElem_map, Function.comp]
        obtain ⟨p, hp⟩ := h rs[i] (List.getElem_mem h1)
        rw [hp]
      set outcomes := rs.map (fun r =>
          match r with
          | .ok (Outcome.Good p) => Outcome.Good p
          | _ => Outcome.Good "") with houtc
      rw [mainExit, (tryCollect_eq_ok_iff rs outcomes).mpr hmap]
      apply (verdictOutcomes_ok_iff outcomes).mpr
      intro o ho
      rw [houtc] at ho
      obtain ⟨r, hr, rfl⟩ := List.mem_map.mp ho
      obtain ⟨p, hp⟩ := h r hr
      rw [hp]
      rfl
  · intro ⟨e, he⟩
    obtain ⟨e2, h2⟩ := tryCollect_error_of_mem rs e he
    exact ⟨e2, by rw [mainExit, h2]⟩

/-- Witness for C7 at a concrete single-device run that finished `Good`. -/
theorem exit_zero_iff_all_good_witness :
    (mainExit rs0 = .ok () ↔ ∀ r ∈ rs0, ∃ p, r = .ok (.Good p)) ∧
    ((∃ e, Except.error e ∈ rs0) → ∃ e2, mainExit rs0 = .error (.taskFault e2)) :=
  exit_zero_iff_all_good rs0

/-- Helper: options built by one setup iteration carry the seed passed in. -/
theorem setupDevice_seed (env : SetupEnv) (args : Args) (seed : Nat)
    (d : ValidDevice) (opts : TestOptions)
    (h : setupDevice env args seed d = .ok opts) : opts.seed = seed := by
  unfold setupDevice at h
  split at h
  · cases h
  · split at h
    · cases h
    · injection h with h1
      rw [← h1]

/-- Helper: every options record the setup loop produces carries the seed
passed in. -/
theorem setupLoop_seed (env : SetupEnv) (args : Args) (seed : Nat)
    (ds : List ValidDevice) (optsList : List TestOptions)
    (h : setupLoop env args seed ds = .ok optsList) :
    ∀ opts ∈ optsList, opts.seed = seed := by
  induction ds generalizing optsList with
  | nil =>
    rw [setupLoop] at h
    injection h with h1
    rw [← h1]
    intro o ho
    cases ho
  | cons d rest ih =>
    rw [setupLoop] at h
    cases hsd : setupDevice env args seed d with
    | error e => rw [hsd] at h; cases h
    | ok opts =>
      rw [hsd] at h
      cases hsl : setupLoop env args seed rest with
      | error e => rw [hsl] at h; cases h
      | ok others =>
        rw [hsl] at h
        injection h with h1
        rw [← h1]
        intro o ho
        rcases List.mem_cons.mp ho with h2 | h2
        · rw [h2]
          exact setupDevice_seed env args seed d opts hsd
        · exact ih others hsl o h2

/-- C9: the run-wide seed is resolved once (caller-supplied value, else the
freshly generated one) before any task starts, and that same value ends up in
every device task's `TestOptions` (`src/main.rs` lines 89 and 113). -/
theorem run_seed_fixed_and_shared (env : SetupEnv) (args : Args) (fresh : Nat)
    (optsList : List TestOptions)
    (h : setupAll env args (resolveSeed args fresh) = .ok optsList) :
    (∀ opts ∈ optsList, opts.seed = resolveSeed args fresh) ∧
    (args.seed = none → resolveSeed args fresh = fresh) ∧
    (∀ s, args.seed = some s → resolveSeed args fresh = s) := by
  refine ⟨setupLoop_seed env args _ args.devices optsList h, ?_, ?_⟩
  · intro hn
    rw [resolveSeed, hn]
  · intro s hs
    rw [resolveSeed, hs]

/-- Witness for C9: two devices under a passing environment, no
caller-supplied seed, fresh seed 7. -/
theorem run_seed_fixed_and_shared_witness :
    (∀ opts ∈ optsList0, opts.seed = resolveSeed args0 7) ∧
    (args0.seed = none → resolveSeed args0 7 = 7) ∧
    (∀ s, args0.seed = some s → resolveSeed args0 7 = s) :=
  run_seed_fixed_and_shared envOk args0 7 optsList0 rfl

/-- C8 counterexample: with a first device that fails validation and a second
that would pass, the whole setup loop — and with it `main`, through the `?`
on `src/main.rs` line 105 — returns the validation error; no device list of
options is produced, so the remaining device does not proceed. -/
theorem validation_error_counterexample :
    setupAll envFailBad argsBad 5 = .error "device ineligible" ∧
    ∀ l, setupAll envFailBad argsBad 5 ≠ .ok l := by
  have h1 : setupAll envFailBad argsBad 5 = .error "device ineligible" := by rfl
  refine ⟨h1, ?_⟩
  intro l h
  rw [h1] at h
  cases h

/-- Helper: a device failing either the sanity check or the capacity probe
makes its setup iteration fail. -/
theorem setupDevice_error_of_check_error (env : SetupEnv) (args : Args) (seed : Nat)
    (d : ValidDevice) (e : String)
    (hs : env.sanity args d.partitionInfo d.path d.device = .error e ∨
      env.capacity d.path = .error e) :
    ∃ e1, setupDevice env args seed d = .error e1 := by
  rcases hs with hs | hs
  · exact ⟨e, by rw [setupDevice, hs]⟩
  · cases hsan : env.sanity args d.partitionInfo d.path d.device with
    | error e1 => exact ⟨e1, by rw [setupDevice, hsan]⟩
    | ok u => exact ⟨e, by rw [setupDevice, hsan, hs]⟩

/-- Helper: a failing setup iteration for any device in the remaining list
makes the setup loop fail as a whole. -/
theorem setupLoop_error_of_device_error (env : SetupEnv) (args : Args) (seed : Nat)
    (d : ValidDevice) (e1 : String)
    (hsd : setupDevice env args seed d = .error e1) :
    ∀ ds : List ValidDevice, d ∈ ds → ∃ e2, setupLoop env args seed ds = .error e2 := by
  intro ds
  induction ds with
  | nil => intro hd; cases hd
  | cons d1 rest ih =>
    intro hd
    rcases List.mem_cons.mp hd with h1 | h1
    · refine ⟨e1, ?_⟩
      rw [setupLoop, ← h1, hsd]
    · cases hsd1 : setupDevice env args seed d1 with
      | error e3 => exact ⟨e3, by rw [setupLoop, hsd1]⟩
      | ok opts =>
        obtain ⟨e2, h2⟩ := ih h1
        exact ⟨e2, by rw [setupLoop, hsd1, h2]⟩

/-- C8 amended: a validation error on any requested device — its sanity
check or its capacity probe failing — is fatal to the entire run: `main`
propagates the error (the `?` on `src/main.rs` lines 105 and 108), so no
per-device task list is produced, the other devices do not proceed through
their tests, and the process exits non-zero. -/
theorem validation_error_aborts_whole_run (env : SetupEnv) (args : Args) (seed : Nat)
    (d : ValidDevice) (e : String) (hd : d ∈ args.devices)
    (hs : env.sanity args d.partitionInfo d.path d.device = .error e ∨
      env.capacity d.path = .error e) :
    ∃ e2, setupAll env args seed = .error e2 := by
  obtain ⟨e1, hsd⟩ := setupDevice_error_of_check_error env args seed d e hs
  exact setupLoop_error_of_device_error env args seed d e1 hsd args.devices hd

/-- Witness for the amended C8: a sanity-check failure and a capacity-probe
failure each abort the concrete two-device setup. -/
theorem validation_error_aborts_whole_run_witness :
    (∃ e2, setupAll envFailBad argsBad 5 = .error e2) ∧
    (∃ e2, setupAll envCapFail argsBad 5 = .error e2) :=
  ⟨validation_error_aborts_whole_run envFailBad argsBad 5 devIneligible
      "device ineligible" (by simp [argsBad]) (Or.inl (by rfl)),
    validation_error_aborts_whole_run envCapFail argsBad 5 devIneligible
      "capacity probe failed" (by simp [argsBad]) (Or.inr (by rfl))⟩

/-- Witness for C10 at a concrete outcome list containing an `Uncertain`. -/
theorem summary_collapses_uncertain_with_bad_witness :
    ((outcomes0.partition isGood).2 = outcomes0.filter (fun o => !isGood o)) ∧
    (isGood (.Uncertain "sdz") = false ∧ isGood (.Bad "sdz") = false) ∧
    (Outcome.Uncertain "sdz" ∈ outcomes0 →
      Outcome.Uncertain "sdz" ∈ (outcomes0.partition isGood).2) ∧
    (∀ rest, verdictOutcomes (.Uncertain "sdz" :: rest) =
      verdictOutcomes (.Bad "sdz" :: rest)) ∧
    (verdictOutcomes outcomes0 = .ok () ↔ (outcomes0.partition isGood).2 = []) :=
  summary_collapses_uncertain_with_bad outcomes0 "sdz"

end DiskSpinner
